import Mathlib

/-!
Shallow embedding of the intent engine in `src/main.py` (repository Puny).

Timestamps are modelled as rationals measured in seconds, exactly as the
Python code uses `time.time()` values; every comparison in the code
multiplies a difference of timestamps by 1000 before comparing against a
window length in milliseconds, and the embedding keeps those expressions
verbatim.  The Python `dict` grammar is modelled as an association list
looked up with `List.lookup` (the keys of the hard-coded grammar are
distinct, so first-match lookup coincides with dict lookup).  `feed`
mutates the engine in place in Python; here it returns the new state
together with the optional `Intent`.
-/

/-- `class Keystroke`: a raw key code with its arrival timestamp. -/
structure Keystroke where
  key : Int
  time : ℚ
  deriving DecidableEq

/-- `class Intent`: the fully populated value object returned by `feed`. -/
structure Intent where
  name : String
  phrase : String
  confidence : String
  level : Int
  scope : String
  reasons : List String
  preview : String
  deriving DecidableEq

/-- The mutable fields of `class IntentEngine`. -/
structure EngineState where
  buffer : List Keystroke
  window_ms : ℚ
  last_intent_phrase : Option String
  last_intent_time : Option ℚ
  repeat_window_ms : ℚ
  repeat_level : Int
  phrases : List (String × String)
  deriving DecidableEq

namespace IntentEngine

/-- `IntentEngine.__init__`: empty buffer, 400ms window, 600ms repeat
window, repeat level 0, and the hard-coded grammar. -/
def init : EngineState :=
  { buffer := []
    window_ms := 400
    last_intent_phrase := none
    last_intent_time := none
    repeat_window_ms := 600
    repeat_level := 0
    phrases := [("dd", "delete"), ("cc", "clone"), ("wr", "wrap"), ("ii", "insert")] }

/-- `IntentEngine._trim`: keep only the keystrokes whose age in
milliseconds is at most `window_ms`. -/
def trim (st : EngineState) (now : ℚ) : EngineState :=
  { st with buffer := st.buffer.filter (fun k => (now - k.time) * 1000 ≤ st.window_ms) }

/-- The character list built by `IntentEngine._current_phrase` from a
buffer: `chr(k.key)` for every entry with `32 <= k.key <= 126`. -/
def phraseChars (l : List Keystroke) : List Char :=
  l.filterMap (fun k =>
    if 32 ≤ k.key ∧ k.key ≤ 126 then some (Char.ofNat k.key.toNat) else none)

/-- `IntentEngine._current_phrase`: join the printable characters of the
buffer, in window order. -/
def current_phrase (st : EngineState) : String :=
  String.mk (phraseChars st.buffer)

/-- The list built by the loop in `IntentEngine._average_interval_ms`:
consecutive inter-arrival gaps in milliseconds. -/
def intervals : List Keystroke → List ℚ
  | [] => []
  | [_] => []
  | a :: b :: rest => (b.time - a.time) * 1000 :: intervals (b :: rest)

/-- `IntentEngine._average_interval_ms`: `None` on fewer than two
entries, otherwise the arithmetic mean of the gaps. -/
def average_interval_ms (st : EngineState) : Option ℚ :=
  if st.buffer.length < 2 then none
  else some ((intervals st.buffer).sum / ((intervals st.buffer).length : ℚ))

/-- `IntentEngine._confidence_from_timing`. -/
def confidence_from_timing (st : EngineState) : String :=
  match average_interval_ms st with
  | none => "low"
  | some avg => if avg < 120 then "high" else if avg < 250 then "medium" else "low"

/-- The boolean condition of `IntentEngine._resolve_repetition`:
same phrase as last time, a last time exists, and the gap in
milliseconds is at most `repeat_window_ms`. -/
def repeatCond (st : EngineState) (phrase : String) (now : ℚ) : Bool :=
  (st.last_intent_phrase == some phrase) &&
  (match st.last_intent_time with
   | none => false
   | some t => (now - t) * 1000 ≤ st.repeat_window_ms)

/-- `IntentEngine._resolve_repetition`: increment or reset
`repeat_level`, record the phrase and time, and return the level. -/
def resolve_repetition (st : EngineState) (phrase : String) (now : ℚ) :
    EngineState × Int :=
  let level := if repeatCond st phrase now then st.repeat_level + 1 else 1
  ({ st with
      repeat_level := level
      last_intent_phrase := some phrase
      last_intent_time := some now }, level)

/-- `IntentEngine._resolve_scope`. -/
def resolve_scope (confidence : String) (level : Int) : String :=
  if 3 ≤ level then "block"
  else if confidence = "high" then (if 2 ≤ level then "line" else "word")
  else if confidence = "medium" then (if level = 1 then "word" else "line")
  else "character"

/-- `IntentEngine._explain`: one reason describing the confidence tier,
plus a repeat-count reason when `level > 1`. -/
def explain (confidence : String) (level : Int) : List String :=
  let first :=
    if confidence = "high" then "fast typing"
    else if confidence = "medium" then "moderate typing speed"
    else "slow or deliberate typing"
  if 1 < level then [first, "repeated intent (x" ++ toString level ++ ")"]
  else [first]

/-- `IntentEngine._resolve_preview`. -/
def resolve_preview (scope : String) : String :=
  if scope = "character" then "current character"
  else if scope = "word" then "current word"
  else if scope = "line" then "current line"
  else if scope = "block" then "current block"
  else "unknown"

/-- The first two statements of `IntentEngine.feed`: append the new
keystroke and trim the window. -/
def windowAfter (st : EngineState) (key : Int) (now : ℚ) : EngineState :=
  trim { st with buffer := st.buffer ++ [⟨key, now⟩] } now

/-- `IntentEngine.feed`: append the keystroke, trim the window,
recognize the phrase, and either emit a fully populated `Intent` or
nothing.  `now` is the `time.time()` value of the call. -/
def feed (st : EngineState) (key : Int) (now : ℚ) : EngineState × Option Intent :=
  let st2 := windowAfter st key now
  let phrase := current_phrase st2
  match st2.phrases.lookup phrase with
  | some action =>
      let confidence := confidence_from_timing st2
      let r := resolve_repetition st2 phrase now
      let scope := resolve_scope confidence r.2
      ( r.1,
        some
          { name := action
            phrase := phrase
            confidence := confidence
            level := r.2
            scope := scope
            reasons := explain confidence r.2
            preview := resolve_preview scope } )
  | none => (st2, none)

/-- Feed a list of `(key, timestamp)` events in order, collecting the
optional intent each call returns. -/
def feedTrace (st : EngineState) : List (Int × ℚ) → EngineState × List (Option Intent)
  | [] => (st, [])
  | (k, t) :: rest =>
      let r := feed st k t
      let r2 := feedTrace r.1 rest
      (r2.1, r.2 :: r2.2)

/-- The arithmetic mean, in milliseconds, of the inter-arrival gaps over
all adjacent pairs of the list, stated over adjacent pairs (`zipWith`
of the list with its tail) the way the specification words it. -/
def meanGapSpec (l : List Keystroke) : ℚ :=
  (List.zipWith (fun a b => (b.time - a.time) * 1000) l l.tail).sum /
    ((List.zipWith (fun a b => (b.time - a.time) * 1000) l l.tail).length : ℚ)

/-- An engine state that has just emitted "dd" at time 0 and sits at
repeat level 1; used to exercise the repetition tracker. -/
def repeatState : EngineState :=
  { init with
      last_intent_phrase := some "dd"
      last_intent_time := some 0
      repeat_level := 1 }

/-- An engine state whose window holds two keystrokes 50ms apart; used
to exercise the timing classifier. -/
def fastState : EngineState :=
  { init with buffer := [⟨100, 0⟩, ⟨100, 1/20⟩] }

/-- The engine of the end-to-end scenario: grammar `{"dd": "delete"}`,
`window_ms = 400`, `repeat_window_ms = 600`. -/
def ddEngine : EngineState :=
  { init with phrases := [("dd", "delete")] }

/-- An engine state whose window already holds one keystroke for the
character d at time 0; feeding a second d completes the phrase. -/
def halfDDState : EngineState :=
  { init with buffer := [⟨100, 0⟩] }

/-- The intent the engine emits from `halfDDState` when the second d
arrives 50ms after the first. -/
def ddIntent : Intent :=
  { name := "delete"
    phrase := "dd"
    confidence := "high"
    level := 1
    scope := "word"
    reasons := ["fast typing"]
    preview := "current word" }

end IntentEngine

namespace IntentEngine

/-- First-match association-list lookup succeeds exactly on the keys. -/
theorem lookup_isSome_iff (l : List (String × String)) (a : String) :
    (l.lookup a).isSome ↔ a ∈ l.map Prod.fst := by
  induction l with
  | nil => simp [List.lookup]
  | cons p t ih =>
      obtain ⟨k, v⟩ := p
      by_cases h : a = k
      · subst h
        simp [List.lookup]
      · have hbeq : (a == k) = false := beq_eq_false_iff_ne.2 h
        simp [List.lookup, hbeq, h, ih]

/-- Lookup of a string that is not among the keys returns `none`. -/
theorem lookup_eq_none_of_not_mem (l : List (String × String)) (a : String)
    (h : a ∉ l.map Prod.fst) : l.lookup a = none := by
  cases hl : l.lookup a with
  | none => rfl
  | some v =>
      exact absurd ((lookup_isSome_iff l a).1 (by rw [hl]; rfl)) h

/-- `feed` with its local bindings unfolded, for use in rewriting. -/
theorem feed_def (st : EngineState) (key : Int) (now : ℚ) :
    feed st key now =
      match (windowAfter st key now).phrases.lookup (current_phrase (windowAfter st key now)) with
      | some action =>
          ((resolve_repetition (windowAfter st key now) (current_phrase (windowAfter st key now)) now).1,
            some
              { name := action
                phrase := current_phrase (windowAfter st key now)
                confidence := confidence_from_timing (windowAfter st key now)
                level :=
                  (resolve_repetition (windowAfter st key now) (current_phrase (windowAfter st key now)) now).2
                scope :=
                  resolve_scope (confidence_from_timing (windowAfter st key now))
                    (resolve_repetition (windowAfter st key now) (current_phrase (windowAfter st key now)) now).2
                reasons :=
                  explain (confidence_from_timing (windowAfter st key now))
                    (resolve_repetition (windowAfter st key now) (current_phrase (windowAfter st key now)) now).2
                preview :=
                  resolve_preview
                    (resolve_scope (confidence_from_timing (windowAfter st key now))
                      (resolve_repetition (windowAfter st key now) (current_phrase (windowAfter st key now))
                          now).2) })
      | none => (windowAfter st key now, none) := rfl

/-- The state returned by `feed` carries the appended-then-trimmed
window, whichever branch was taken. -/
theorem feed_fst_buffer (st : EngineState) (key : Int) (now : ℚ) :
    (feed st key now).1.buffer = (windowAfter st key now).buffer := by
  rw [feed_def]
  cases h : (windowAfter st key now).phrases.lookup (current_phrase (windowAfter st key now)) <;> rfl

/-- `feed` never changes the grammar. -/
theorem feed_fst_phrases (st : EngineState) (key : Int) (now : ℚ) :
    (feed st key now).1.phrases = st.phrases := by
  rw [feed_def]
  cases h : (windowAfter st key now).phrases.lookup (current_phrase (windowAfter st key now)) <;> rfl

/-- The phrase of the state `feed` returns is the phrase of the
appended-then-trimmed window. -/
theorem feed_fst_current_phrase (st : EngineState) (key : Int) (now : ℚ) :
    current_phrase (feed st key now).1 = current_phrase (windowAfter st key now) := by
  unfold current_phrase
  rw [feed_fst_buffer]

/-- When the window phrase is not a grammar key, `feed` only trims. -/
theorem feed_of_not_mem (st : EngineState) (key : Int) (now : ℚ)
    (h : current_phrase (windowAfter st key now) ∉ st.phrases.map Prod.fst) :
    feed st key now = (windowAfter st key now, none) := by
  have hl :
      (windowAfter st key now).phrases.lookup (current_phrase (windowAfter st key now)) = none := by
    exact lookup_eq_none_of_not_mem _ _ h
  rw [feed_def, hl]

end IntentEngine

namespace IntentEngine

/-- C1: for every engine state, key code and timestamp, `feed` returns
an `Intent` exactly when the printable-character string of the
appended-then-trimmed window (codes in [32,126], in window order,
non-printable codes skipped) is a key of the phrase grammar; any other
window content, the empty string included, yields nothing. -/
theorem C1_emit_iff_phrase_in_grammar (st : EngineState) (key : Int) (now : ℚ) :
    ((feed st key now).2).isSome ↔
      current_phrase (feed st key now).1 ∈ st.phrases.map Prod.fst := by
  rw [feed_fst_current_phrase]
  rw [feed_def]
  cases h : (windowAfter st key now).phrases.lookup (current_phrase (windowAfter st key now)) with
  | some a =>
      constructor
      · intro _
        exact (lookup_isSome_iff st.phrases _).1 (by rw [show st.phrases.lookup (current_phrase (windowAfter st key now)) = some a from h]; rfl)
      · intro _
        rfl
  | none =>
      constructor
      · intro hcontra
        exact absurd hcontra (by simp)
      · intro hmem
        have hs := (lookup_isSome_iff st.phrases (current_phrase (windowAfter st key now))).2 hmem
        rw [show st.phrases.lookup (current_phrase (windowAfter st key now)) = none from h] at hs
        exact absurd hs (by simp)

end IntentEngine

namespace IntentEngine

/-- C2: the scope resolver is a function (hence returns exactly one
scope) and, for every confidence in low/medium/high and every level at
least 1, follows the priority table: level at least 3 gives block
regardless of confidence; otherwise high gives line when level is at
least 2 and word otherwise; medium gives word when level equals 1 and
line otherwise; low gives character. -/
theorem C2_scope_table (level : Int) (_h1 : 1 ≤ level) :
    (3 ≤ level →
      resolve_scope "low" level = "block" ∧
      resolve_scope "medium" level = "block" ∧
      resolve_scope "high" level = "block") ∧
    (level < 3 →
      resolve_scope "high" level = (if 2 ≤ level then "line" else "word") ∧
      resolve_scope "medium" level = (if level = 1 then "word" else "line") ∧
      resolve_scope "low" level = "character") := by
  constructor
  · intro h3
    refine ⟨?_, ?_, ?_⟩ <;> simp [resolve_scope, h3]
  · intro h3
    have h3n : ¬ (3 ≤ level) := not_le.mpr h3
    refine ⟨?_, ?_, ?_⟩ <;> simp [resolve_scope, h3n]

/-- C2 witness: the table evaluated at medium confidence, level 4. -/
theorem C2_scope_table_witness : resolve_scope "medium" 4 = "block" :=
  ((C2_scope_table 4 (by norm_num)).1 (by norm_num)).2.1

end IntentEngine

namespace IntentEngine

/-- The loop of `_average_interval_ms` computes exactly the gaps over
adjacent pairs of the buffer. -/
theorem intervals_eq_zipWith :
    ∀ l : List Keystroke,
      intervals l = List.zipWith (fun a b => (b.time - a.time) * 1000) l l.tail
  | [] => rfl
  | [_] => rfl
  | a :: b :: rest => by
      show (b.time - a.time) * 1000 :: intervals (b :: rest) = _
      rw [intervals_eq_zipWith (b :: rest)]
      rfl

/-- C4: the confidence tier: fewer than two window entries give low;
otherwise the arithmetic mean of the adjacent inter-arrival gaps in
milliseconds gives high below 120, medium in [120, 250), low at or
above 250. -/
theorem C4_confidence_tiers (st : EngineState) :
    (st.buffer.length < 2 → confidence_from_timing st = "low") ∧
    (2 ≤ st.buffer.length →
      confidence_from_timing st =
        if meanGapSpec st.buffer < 120 then "high"
        else if meanGapSpec st.buffer < 250 then "medium"
        else "low") := by
  constructor
  · intro h
    simp [confidence_from_timing, average_interval_ms, h]
  · intro h
    have hn : ¬ (st.buffer.length < 2) := not_lt.mpr h
    simp only [confidence_from_timing, average_interval_ms, hn, if_false]
    have hm :
        (intervals st.buffer).sum / ((intervals st.buffer).length : ℚ) =
          meanGapSpec st.buffer := by
      rw [meanGapSpec, intervals_eq_zipWith]
    rw [hm]

/-- C4 witness: a window of two keystrokes 50ms apart is classified by
the mean-gap table (and evaluates to high). -/
theorem C4_confidence_tiers_witness :
    confidence_from_timing fastState =
      (if meanGapSpec fastState.buffer < 120 then "high"
       else if meanGapSpec fastState.buffer < 250 then "medium"
       else "low") :=
  (C4_confidence_tiers fastState).2 (by decide)

end IntentEngine

namespace IntentEngine

/-- Evaluation helper: key code 100 is the character d. -/
theorem charD : Char.ofNat (Int.toNat 100) = 'd' := rfl

/-- Evaluation helper: the one-character window string. -/
theorem strD1 : String.mk ['d'] = "d" := rfl

/-- Evaluation helper: the two-character window string. -/
theorem strD2 : String.mk ['d', 'd'] = "dd" := rfl

/-- Evaluation helper: the three-character window string. -/
theorem strD3 : String.mk ['d', 'd', 'd'] = "ddd" := rfl

/-- Evaluation helper: the four-character window string. -/
theorem strD4 : String.mk ['d', 'd', 'd', 'd'] = "dddd" := rfl

/-- Evaluation helper: grammar comparisons for the window string d. -/
theorem beq1 : ("d" == "dd") = false := by decide

/-- Evaluation helper. -/
theorem beq2 : ("d" == "cc") = false := by decide

/-- Evaluation helper. -/
theorem beq3 : ("d" == "wr") = false := by decide

/-- Evaluation helper. -/
theorem beq4 : ("d" == "ii") = false := by decide

/-- Evaluation helper. -/
theorem beq5 : ("dd" == "dd") = true := by decide

/-- Evaluation helper. -/
theorem beq6 : ("ddd" == "dd") = false := by decide

/-- Evaluation helper. -/
theorem beq7 : ("ddd" == "cc") = false := by decide

/-- Evaluation helper. -/
theorem beq8 : ("ddd" == "wr") = false := by decide

/-- Evaluation helper. -/
theorem beq9 : ("ddd" == "ii") = false := by decide

/-- Evaluation helper. -/
theorem beq10 : ("dddd" == "dd") = false := by decide

/-- Evaluation helper. -/
theorem beq11 : ("dddd" == "cc") = false := by decide

/-- Evaluation helper. -/
theorem beq12 : ("dddd" == "wr") = false := by decide

/-- Evaluation helper. -/
theorem beq13 : ("dddd" == "ii") = false := by decide

/-- Evaluation helper: confidence string comparisons. -/
theorem seq1 : ("low" = "high") = False := by simp

/-- Evaluation helper. -/
theorem seq2 : ("low" = "medium") = False := by simp

/-- Evaluation helper. -/
theorem seq3 : ("high" = "high") = True := by simp

/-- Evaluation helper. -/
theorem seq4 : ("medium" = "high") = False := by simp

/-- Evaluation helper. -/
theorem seq5 : ("medium" = "medium") = True := by simp

/-- Evaluation helper: scope string comparisons. -/
theorem seq6 : ("word" = "character") = False := by simp

/-- Evaluation helper. -/
theorem seq7 : ("line" = "character") = False := by simp

/-- Evaluation helper. -/
theorem seq8 : ("line" = "word") = False := by simp

/-- Evaluation helper. -/
theorem seq9 : ("block" = "character") = False := by simp

/-- Evaluation helper. -/
theorem seq10 : ("block" = "word") = False := by simp

/-- Evaluation helper. -/
theorem seq11 : ("block" = "line") = False := by simp

/-- Evaluation helper. -/
theorem seq12 : ("word" = "word") = True := by simp

/-- Evaluation helper. -/
theorem seq13 : ("line" = "line") = True := by simp

/-- Evaluation helper. -/
theorem seq14 : ("block" = "block") = True := by simp

/-- Evaluation helper. -/
theorem seq15 : ("character" = "character") = True := by simp

set_option maxHeartbeats 4000000 in
/-- C3 counterexample: with the default engine, feed d at 0ms and d at
50ms ("dd" is recognized at level 1), wait 100ms, then feed d at 150ms
and d at 200ms.  The second "dd" is NOT recognized at level 2: the
first two keystrokes are still inside the 400ms window, so the window
reads "ddd" and then "dddd", and both calls return nothing. -/
theorem C3_counterexample :
    (feedTrace init [(100, 0), (100, 1/20), (100, 3/20), (100, 1/5)]).2.map
        (Option.map Intent.level) =
      [none, some 1, none, none] := by
  norm_num [feedTrace, feed, windowAfter, trim, current_phrase, phraseChars,
    average_interval_ms, intervals, confidence_from_timing, repeatCond,
    resolve_repetition, resolve_scope, explain, resolve_preview, init,
    List.lookup, List.filter, List.filterMap, charD, strD1, strD2, strD3, strD4,
    beq1, beq2, beq3, beq4, beq5, beq6, beq7, beq8, beq9, beq10, beq11, beq12, beq13,
    seq1, seq2, seq3, seq4, seq5]

set_option maxHeartbeats 8000000 in
/-- C3 (amended): the repetition tracker increments the level by 1 when
the last phrase equals the current one, a last time is set, and the gap
is at most `repeat_window_ms`, and resets the level to 1 otherwise; in
both cases it records the phrase and the time and returns the level.
Scenario (amended timings so the previous keystrokes age out of the
400ms window): d at 0ms, d at 50ms gives level 1; d at 500ms, d at
550ms completes "dd" within 600ms of the previous emission and gives
level 2; d at 1300ms, d at 1350ms completes "dd" 800ms after the
previous emission and resets to level 1. -/
theorem C3_repetition :
    (∀ (st : EngineState) (phrase : String) (now : ℚ),
      (resolve_repetition st phrase now).1.last_intent_phrase = some phrase ∧
      (resolve_repetition st phrase now).1.last_intent_time = some now ∧
      (resolve_repetition st phrase now).1.repeat_level = (resolve_repetition st phrase now).2 ∧
      (∀ t, st.last_intent_phrase = some phrase → st.last_intent_time = some t →
        (now - t) * 1000 ≤ st.repeat_window_ms →
        (resolve_repetition st phrase now).2 = st.repeat_level + 1) ∧
      (st.last_intent_phrase ≠ some phrase → (resolve_repetition st phrase now).2 = 1) ∧
      (st.last_intent_time = none → (resolve_repetition st phrase now).2 = 1) ∧
      (∀ t, st.last_intent_time = some t → st.repeat_window_ms < (now - t) * 1000 →
        (resolve_repetition st phrase now).2 = 1)) ∧
    (feedTrace init [(100, 0), (100, 1/20), (100, 1/2), (100, 11/20), (100, 13/10), (100, 27/20)]).2.map
        (Option.map Intent.level) =
      [none, some 1, none, some 2, none, some 1] := by
  constructor
  · intro st phrase now
    refine ⟨rfl, rfl, rfl, ?_, ?_, ?_, ?_⟩
    · intro t h1 h2 h3
      have hc : repeatCond st phrase now = true := by
        simp [repeatCond, h1, h2, h3]
      simp [resolve_repetition, hc]
    · intro h1
      have hc : repeatCond st phrase now = false := by
        simp [repeatCond, h1]
      simp [resolve_repetition, hc]
    · intro h1
      have hc : repeatCond st phrase now = false := by
        simp [repeatCond, h1]
      simp [resolve_repetition, hc]
    · intro t h1 h2
      have hc : repeatCond st phrase now = false := by
        simp [repeatCond, h1, not_le.mpr h2]
      simp [resolve_repetition, hc]
  · norm_num [feedTrace, feed, windowAfter, trim, current_phrase, phraseChars,
      average_interval_ms, intervals, confidence_from_timing, repeatCond,
      resolve_repetition, resolve_scope, explain, resolve_preview, init,
      List.lookup, List.filter, List.filterMap, charD, strD1, strD2, strD3, strD4,
      beq1, beq2, beq3, beq4, beq5, beq6, beq7, beq8, beq9, beq10, beq11, beq12, beq13,
      seq1, seq2, seq3, seq4, seq5]

/-- C3 witness: from a state that has just emitted "dd" at time 0 with
level 1, the same phrase 100ms later increments the level. -/
theorem C3_repetition_witness :
    (resolve_repetition repeatState "dd" (1/10)).2 = repeatState.repeat_level + 1 :=
  (C3_repetition.1 repeatState "dd" (1/10)).2.2.2.1 0 rfl rfl (by norm_num [repeatState, init])

end IntentEngine

namespace IntentEngine

/-- Evaluation helper: the repeat reason at level 2. -/
theorem reasonX2 : ("repeated intent (x" ++ toString (2 : Int) ++ ")") = "repeated intent (x2)" := by
  decide

set_option maxHeartbeats 4000000 in
/-- C5 counterexample: with grammar dd-to-delete, window 400ms, repeat
window 600ms, feeding d at 0ms and d at 50ms returns the expected
Intent (delete, high, level 1, word, "current word"); but then
IMMEDIATELY feeding d, d again at high speed (at 100ms and 150ms,
within 600ms) returns nothing on both calls instead of a level-2
Intent, because the first two keystrokes are still inside the 400ms
window and the window reads "ddd" and then "dddd". -/
theorem C5_counterexample :
    (feedTrace ddEngine [(100, 0), (100, 1/20), (100, 1/10), (100, 3/20)]).2 =
      [none,
       some { name := "delete", phrase := "dd", confidence := "high", level := 1,
              scope := "word", reasons := ["fast typing"], preview := "current word" },
       none, none] := by
  norm_num [feedTrace, feed, windowAfter, trim, current_phrase, phraseChars,
    average_interval_ms, intervals, confidence_from_timing, repeatCond,
    resolve_repetition, resolve_scope, explain, resolve_preview, ddEngine, init,
    List.lookup, List.filter, List.filterMap, charD, strD1, strD2, strD3, strD4,
    beq1, beq5, beq6, beq10, seq1, seq2, seq3, seq4, seq5, seq6, seq7, seq8,
    seq9, seq10, seq11, seq12, seq13, seq14, seq15]

set_option maxHeartbeats 4000000 in
/-- C5 (amended): with grammar dd-to-delete, window_ms = 400 and
repeat_window_ms = 600, feeding d at 0ms and d at 50ms returns
Intent(action delete, confidence high, level 1, scope word, preview
"current word"); feeding d, d again at high speed once the earlier
keystrokes have aged out of the 400ms window but still within 600ms of
the previous emission (d at 460ms, d at 470ms) returns an Intent with
level 2 and scope line. -/
theorem C5_end_to_end :
    (feedTrace ddEngine [(100, 0), (100, 1/20), (100, 23/50), (100, 47/100)]).2 =
      [none,
       some { name := "delete", phrase := "dd", confidence := "high", level := 1,
              scope := "word", reasons := ["fast typing"], preview := "current word" },
       none,
       some { name := "delete", phrase := "dd", confidence := "high", level := 2,
              scope := "line", reasons := ["fast typing", "repeated intent (x2)"],
              preview := "current line" }] := by
  norm_num [feedTrace, feed, windowAfter, trim, current_phrase, phraseChars,
    average_interval_ms, intervals, confidence_from_timing, repeatCond,
    resolve_repetition, resolve_scope, explain, resolve_preview, ddEngine, init,
    List.lookup, List.filter, List.filterMap, charD, strD1, strD2, strD3, strD4,
    beq1, beq5, beq6, beq10, seq1, seq2, seq3, seq4, seq5, seq6, seq7, seq8,
    seq9, seq10, seq11, seq12, seq13, seq14, seq15, reasonX2]

end IntentEngine

namespace IntentEngine

set_option maxHeartbeats 4000000 in
/-- C6: after every feed call, every keystroke remaining in the window
has age at most `window_ms`; and entries older than the window never
contribute to recognition: with the default 400ms window, typing d at
0ms, waiting 500ms and typing d again does not recognize "dd" — both
calls return nothing. -/
theorem C6_window_age_bound :
    (∀ (st : EngineState) (key : Int) (now : ℚ),
      ∀ k ∈ (feed st key now).1.buffer, (now - k.time) * 1000 ≤ st.window_ms) ∧
    (feedTrace init [(100, 0), (100, 1/2)]).2 = [none, none] := by
  constructor
  · intro st key now k hk
    rw [feed_fst_buffer] at hk
    have hk2 : k ∈ ({ st with buffer := st.buffer ++ [(⟨key, now⟩ : Keystroke)] } :
        EngineState).buffer.filter
          (fun k => (now - k.time) * 1000 ≤ st.window_ms) := hk
    have := (List.mem_filter.mp hk2).2
    exact of_decide_eq_true this
  · norm_num [feedTrace, feed, windowAfter, trim, current_phrase, phraseChars,
      average_interval_ms, intervals, confidence_from_timing, repeatCond,
      resolve_repetition, resolve_scope, explain, resolve_preview, init,
      List.lookup, List.filter, List.filterMap, charD, strD1, strD2,
      beq1, beq2, beq3, beq4, seq1, seq2, seq3, seq4, seq5, seq6, seq7, seq8,
      seq9, seq10, seq11, seq12, seq13, seq14, seq15]

/-- C6 witness: the freshly appended keystroke of a concrete feed
satisfies the age bound. -/
theorem C6_window_age_bound_witness :
    ((0 : ℚ) - 0) * 1000 ≤ init.window_ms :=
  C6_window_age_bound.1 init 100 0 ⟨100, 0⟩ (by
    simp [feed_def, windowAfter, trim, current_phrase, phraseChars, init,
      List.lookup, List.filter, charD, strD1, beq1, beq2, beq3, beq4])

end IntentEngine

namespace IntentEngine

/-- Evaluation helper: key code 122 is the character z. -/
theorem charZ : Char.ofNat (Int.toNat 122) = 'z' := rfl

/-- Evaluation helper. -/
theorem strZ1 : String.mk ['z'] = "z" := rfl

/-- Evaluation helper. -/
theorem zbeq1 : ("z" == "dd") = false := by decide

/-- Evaluation helper. -/
theorem zbeq2 : ("z" == "cc") = false := by decide

/-- Evaluation helper. -/
theorem zbeq3 : ("z" == "wr") = false := by decide

/-- Evaluation helper. -/
theorem zbeq4 : ("z" == "ii") = false := by decide

/-- Every printable character extracted from a buffer of z keystrokes
is the character z. -/
theorem zchars (l : List Keystroke) (hz : ∀ k ∈ l, k.key = 122) :
    ∀ c ∈ phraseChars l, c = 'z' := by
  intro c hc
  simp only [phraseChars, List.mem_filterMap] at hc
  obtain ⟨k, hk, hik⟩ := hc
  rw [hz k hk] at hik
  rw [if_pos (by decide : (32 : Int) ≤ 122 ∧ (122 : Int) ≤ 126)] at hik
  have h2 := Option.some.inj hik
  rw [← h2]
  rfl

/-- A window whose keystrokes are all z never spells a key of the
default grammar. -/
theorem z_not_in_grammar (st : EngineState) (hz : ∀ k ∈ st.buffer, k.key = 122)
    (hp : st.phrases = init.phrases) :
    current_phrase st ∉ st.phrases.map Prod.fst := by
  rw [hp]
  intro hmem
  have hmem2 : current_phrase st ∈ ["dd", "cc", "wr", "ii"] := by
    simpa [init] using hmem
  have hzc : ∀ c ∈ phraseChars st.buffer, c = 'z' := zchars _ hz
  have hdata : (current_phrase st).data = phraseChars st.buffer := rfl
  simp only [List.mem_cons, List.not_mem_nil, or_false] at hmem2
  rcases hmem2 with h | h | h | h
  · have hd : 'd' ∈ phraseChars st.buffer := by rw [← hdata, h]; decide
    exact absurd (hzc _ hd) (by decide)
  · have hd : 'c' ∈ phraseChars st.buffer := by rw [← hdata, h]; decide
    exact absurd (hzc _ hd) (by decide)
  · have hd : 'w' ∈ phraseChars st.buffer := by rw [← hdata, h]; decide
    exact absurd (hzc _ hd) (by decide)
  · have hd : 'i' ∈ phraseChars st.buffer := by rw [← hdata, h]; decide
    exact absurd (hzc _ hd) (by decide)

/-- Appending a z keystroke and trimming keeps the all-z property. -/
theorem windowAfter_allZ (st : EngineState) (t : ℚ) (hz : ∀ k ∈ st.buffer, k.key = 122) :
    ∀ k ∈ (windowAfter st 122 t).buffer, k.key = 122 := by
  intro k hk
  have hk2 : k ∈ st.buffer ++ [(⟨122, t⟩ : Keystroke)] := List.mem_of_mem_filter hk
  rcases List.mem_append.mp hk2 with h | h
  · exact hz k h
  · simp only [List.mem_singleton] at h
    rw [h]

/-- Feeding z into an all-z engine with the default grammar only
trims. -/
theorem feedZ (st : EngineState) (t : ℚ) (hz : ∀ k ∈ st.buffer, k.key = 122)
    (hp : st.phrases = init.phrases) :
    feed st 122 t = (windowAfter st 122 t, none) := by
  apply feed_of_not_mem
  exact z_not_in_grammar (windowAfter st 122 t) (windowAfter_allZ st t hz) hp

/-- Feeding any sequence of z keystrokes into an all-z engine with the
default grammar returns nothing every time and never touches the
repetition state. -/
theorem zTrace (ts : List ℚ) : ∀ (st : EngineState),
    st.phrases = init.phrases → (∀ k ∈ st.buffer, k.key = 122) →
    (∀ o ∈ (feedTrace st (ts.map (fun t => (122, t)))).2, o = none) ∧
    (feedTrace st (ts.map (fun t => (122, t)))).1.last_intent_phrase = st.last_intent_phrase ∧
    (feedTrace st (ts.map (fun t => (122, t)))).1.last_intent_time = st.last_intent_time ∧
    (feedTrace st (ts.map (fun t => (122, t)))).1.repeat_level = st.repeat_level := by
  induction ts with
  | nil =>
      intro st hp hz
      simp [feedTrace]
  | cons t ts ih =>
      intro st hp hz
      have hf := feedZ st t hz hp
      have h2 := ih (windowAfter st 122 t) hp (windowAfter_allZ st t hz)
      simp only [List.map_cons, feedTrace, hf]
      refine ⟨?_, h2.2.1, h2.2.2.1, h2.2.2.2⟩
      intro o ho
      simp only [List.mem_cons] at ho
      rcases ho with h | h
      · exact h
      · exact h2.1 o h

/-- C7: a feed call whose window phrase is not in the grammar returns
nothing and leaves the repetition state (`last_intent_phrase`,
`last_intent_time`, `repeat_level`), the configuration and the grammar
unchanged; the only state change is the window append-and-trim.  In
particular, feeding z any number of times never mutates the repetition
state and always returns nothing. -/
theorem C7_nonmatch_frame :
    (∀ (st : EngineState) (key : Int) (now : ℚ),
      current_phrase (feed st key now).1 ∉ st.phrases.map Prod.fst →
      (feed st key now).2 = none ∧
      (feed st key now).1.last_intent_phrase = st.last_intent_phrase ∧
      (feed st key now).1.last_intent_time = st.last_intent_time ∧
      (feed st key now).1.repeat_level = st.repeat_level ∧
      (feed st key now).1.window_ms = st.window_ms ∧
      (feed st key now).1.repeat_window_ms = st.repeat_window_ms ∧
      (feed st key now).1.phrases = st.phrases ∧
      (feed st key now).1.buffer =
        (st.buffer ++ [(⟨key, now⟩ : Keystroke)]).filter
          (fun k => (now - k.time) * 1000 ≤ st.window_ms)) ∧
    (∀ ts : List ℚ,
      (∀ o ∈ (feedTrace init (ts.map (fun t => (122, t)))).2, o = none) ∧
      (feedTrace init (ts.map (fun t => (122, t)))).1.last_intent_phrase = none ∧
      (feedTrace init (ts.map (fun t => (122, t)))).1.last_intent_time = none ∧
      (feedTrace init (ts.map (fun t => (122, t)))).1.repeat_level = 0) := by
  constructor
  · intro st key now h
    have h2 : current_phrase (windowAfter st key now) ∉ st.phrases.map Prod.fst := by
      rw [← feed_fst_current_phrase]
      exact h
    have hfeed := feed_of_not_mem st key now h2
    refine ⟨by rw [hfeed], by rw [hfeed]; rfl, by rw [hfeed]; rfl, by rw [hfeed]; rfl,
      by rw [hfeed]; rfl, by rw [hfeed]; rfl, by rw [hfeed]; rfl, by rw [hfeed]; rfl⟩
  · intro ts
    have h := zTrace ts init rfl (by intro k hk; exact absurd hk (List.not_mem_nil k))
    exact ⟨h.1, h.2.1, h.2.2.1, h.2.2.2⟩

/-- C7 witness: feeding z into the fresh engine returns nothing. -/
theorem C7_nonmatch_frame_witness : (feed init 122 0).2 = none :=
  (C7_nonmatch_frame.1 init 122 0 (by
    norm_num [feed, windowAfter, trim, current_phrase, phraseChars, init,
      List.lookup, List.filter, List.filterMap, charZ, strZ1,
      zbeq1, zbeq2, zbeq3, zbeq4]
    decide)).1

end IntentEngine

namespace IntentEngine

/-- The first reason is determined solely by the confidence string. -/
theorem explain_head (c : String) (l : Int) :
    (explain c l).head? =
      some (if c = "high" then "fast typing"
        else if c = "medium" then "moderate typing speed"
        else "slow or deliberate typing") := by
  by_cases h : 1 < l <;> simp [explain, h]

/-- A second reason exists exactly when the level exceeds 1. -/
theorem explain_length (c : String) (l : Int) :
    1 < l ↔ (explain c l).length = 2 := by
  by_cases h : 1 < l <;> simp [explain, h]

/-- The second reason states the repeat count. -/
theorem explain_second (c : String) (l : Int) (h : 1 < l) :
    (explain c l).get? 1 = some ("repeated intent (x" ++ toString l ++ ")") := by
  simp [explain, h]

/-- The scope resolver only ever returns one of the four scopes. -/
theorem scope_mem (c : String) (l : Int) :
    resolve_scope c l ∈ ["character", "word", "line", "block"] := by
  unfold resolve_scope
  split_ifs <;> simp

/-- Chaining the scope resolver into the preview resolver never reaches
the defensive "unknown" branch. -/
theorem preview_ne_unknown (c : String) (l : Int) :
    resolve_preview (resolve_scope c l) ≠ "unknown" := by
  have h := scope_mem c l
  simp only [List.mem_cons, List.not_mem_nil, or_false] at h
  rcases h with h | h | h | h <;> rw [h] <;> decide

/-- C8: every emitted Intent has as first reason the confidence tier in
words, a second reason (the repeat count) exactly when the level
exceeds 1, a scope among the four scope strings, a preview determined
purely by that scope, and never the defensive "unknown" preview. -/
theorem C8_reasons_preview (st : EngineState) (key : Int) (now : ℚ) (i : Intent)
    (h : (feed st key now).2 = some i) :
    i.reasons.head? =
      some (if i.confidence = "high" then "fast typing"
        else if i.confidence = "medium" then "moderate typing speed"
        else "slow or deliberate typing") ∧
    (1 < i.level ↔ i.reasons.length = 2) ∧
    (1 < i.level → i.reasons.get? 1 = some ("repeated intent (x" ++ toString i.level ++ ")")) ∧
    i.scope ∈ ["character", "word", "line", "block"] ∧
    (i.scope = "character" → i.preview = "current character") ∧
    (i.scope = "word" → i.preview = "current word") ∧
    (i.scope = "line" → i.preview = "current line") ∧
    (i.scope = "block" → i.preview = "current block") ∧
    i.preview ≠ "unknown" := by
  rw [feed_def] at h
  cases hl : (windowAfter st key now).phrases.lookup (current_phrase (windowAfter st key now)) with
  | none =>
      rw [hl] at h
      exact absurd h (by simp)
  | some a =>
      rw [hl] at h
      simp only [Option.some.injEq] at h
      subst h
      refine ⟨explain_head _ _, explain_length _ _, ?_, scope_mem _ _, ?_, ?_, ?_, ?_,
        preview_ne_unknown _ _⟩
      · intro hlev
        exact explain_second _ _ hlev
      · intro hs
        show resolve_preview _ = "current character"
        rw [show resolve_scope (confidence_from_timing (windowAfter st key now))
            (resolve_repetition (windowAfter st key now)
              (current_phrase (windowAfter st key now)) now).2 = "character" from hs]
        decide
      · intro hs
        show resolve_preview _ = "current word"
        rw [show resolve_scope (confidence_from_timing (windowAfter st key now))
            (resolve_repetition (windowAfter st key now)
              (current_phrase (windowAfter st key now)) now).2 = "word" from hs]
        decide
      · intro hs
        show resolve_preview _ = "current line"
        rw [show resolve_scope (confidence_from_timing (windowAfter st key now))
            (resolve_repetition (windowAfter st key now)
              (current_phrase (windowAfter st key now)) now).2 = "line" from hs]
        decide
      · intro hs
        show resolve_preview _ = "current block"
        rw [show resolve_scope (confidence_from_timing (windowAfter st key now))
            (resolve_repetition (windowAfter st key now)
              (current_phrase (windowAfter st key now)) now).2 = "block" from hs]
        decide

/-- C8 witness: the concrete intent emitted after a second d 50ms after
the first has a preview different from "unknown". -/
theorem C8_reasons_preview_witness : ddIntent.preview ≠ "unknown" :=
  (C8_reasons_preview halfDDState 100 (1/20) ddIntent (by
    norm_num [feed, windowAfter, trim, current_phrase, phraseChars,
      average_interval_ms, intervals, confidence_from_timing, repeatCond,
      resolve_repetition, resolve_scope, explain, resolve_preview, halfDDState, init,
      ddIntent, List.lookup, List.filter, List.filterMap, charD, strD1, strD2,
      beq5, seq1, seq2, seq3, seq4, seq5, seq6, seq7, seq8,
      seq9, seq10, seq11, seq12, seq13, seq14, seq15])).2.2.2.2.2.2.2.2

/-- C10: the keystroke appended by a feed call has age zero, so with a
non-negative window it always survives the trim and the window is
never empty right after a feed. -/
theorem C10_window_nonempty (st : EngineState) (key : Int) (now : ℚ)
    (h : 0 ≤ st.window_ms) :
    (⟨key, now⟩ : Keystroke) ∈ (feed st key now).1.buffer ∧
    (feed st key now).1.buffer ≠ [] := by
  have hmem : (⟨key, now⟩ : Keystroke) ∈ (feed st key now).1.buffer := by
    rw [feed_fst_buffer]
    apply List.mem_filter.mpr
    constructor
    · exact List.mem_append.mpr (Or.inr (by simp))
    · simp only [decide_eq_true_eq]
      show (now - now) * 1000 ≤ st.window_ms
      rw [sub_self, zero_mul]
      exact h
  exact ⟨hmem, List.ne_nil_of_mem hmem⟩

/-- C10 witness: after feeding d at time 0 into the fresh engine, the
new keystroke is in the window and the window is non-empty. -/
theorem C10_window_nonempty_witness :
    (⟨100, 0⟩ : Keystroke) ∈ (feed init 100 0).1.buffer ∧
    (feed init 100 0).1.buffer ≠ [] :=
  C10_window_nonempty init 100 0 (by norm_num [init])

end IntentEngine
